import Mathlib

/-!
Verification of the IP-Freely per-camera stream-processing core.

This file gives a shallow embedding, in Lean, of the parts of the
IP-Freely source that the specification's claims are about:

* the schedule evaluator (`IsScheduleEnabled` / `VerifySchedule` in
  `IpFreelyStreamProcessor.cpp`),
* the manual recording toggles (`StartVideoWriting` / `StopVideoWriting`),
* the safe-recording-FPS computation and FPS-drift handling
  (`ComputeFps` / `CheckFps`),
* the motion detector's writer / hold-off state machine
  (`MessageHandler`, `CreateCaptureObjects`, `WriteVideoFrame` in
  `IpFreelyMotionDetector.cpp`),
* the three-frame rolling window (`InitialiseFrames`, `UpdateNextFrame`,
  `RotateFrames`),
* the bounding-rectangle decay branch of `DetectMotion`,
* the frame conversion `utils::CvMatToQImage` and `GrabVideoFrame`,
* the disk space manager's pruning loops
  (`CheckUsedDiskSpace` / `CheckNumDaysDataStored` /
  `DeleteOldestRecording` in `IpFreelyDiskSpaceManager.cpp`).

C++ `double` values are modelled as `ℚ`; machine integers as `ℤ`/`ℕ`
(all quantities involved stay well inside the machine ranges);
`static_cast<int>` of a double is truncation toward zero.  External
OpenCV / Qt / filesystem effects (opening a `cv::VideoWriter`, the
image contents handed to `cv::absdiff`, disk-usage readings) are
inputs of the embedded step functions, so every theorem quantifies
over their outcomes.
-/

namespace IpFreely

/-! ## Schedule evaluator (`IpFreelyStreamProcessor.cpp`, lines 211-271) -/

/-- A recording / motion schedule: outer list indexed by day of week,
inner list by hour of day (`std::vector<std::vector<bool>>`). -/
abbrev Schedule := List (List Bool)

/-- `IpFreelyStreamProcessor::IsScheduleEnabled`: the double loop with
early break returns true iff some cell of the matrix is true. -/
def isScheduleEnabled (schedule : Schedule) : Bool :=
  schedule.any fun day => day.any fun hour => hour

/-- Errors thrown by `VerifySchedule` via `BOOST_THROW_EXCEPTION`. -/
inductive ScheduleError
  | incorrectNumberOfDays (scheduleId : String)
  | incorrectNumberOfHours (scheduleId : String)
deriving DecidableEq

/-- `IpFreelyStreamProcessor::VerifySchedule`: on a non-empty schedule,
throws if the number of rows is not 7, then throws if the FIRST row
(`schedule.front()`) does not have 24 entries; otherwise the result is
`IsScheduleEnabled`.  An empty schedule yields `false` without error. -/
def verifySchedule (scheduleId : String) (schedule : Schedule) :
    Except ScheduleError Bool :=
  if schedule.isEmpty then Except.ok false
  else if schedule.length ≠ 7 then
    Except.error (ScheduleError.incorrectNumberOfDays scheduleId)
  else if schedule.headI.length ≠ 24 then
    Except.error (ScheduleError.incorrectNumberOfHours scheduleId)
  else Except.ok (isScheduleEnabled schedule)

/-! ## Manual recording toggles (`IpFreelyStreamProcessor.cpp`, lines 88-162) -/

/-- The stream-processor state relevant to the manual recording toggles:
the two schedule flags computed in the constructor and the
`m_enableVideoWriting` flag (default-initialised to `false`). -/
structure StreamProcToggles where
  useRecordingSchedule : Bool
  useMotionSchedule : Bool
  enableVideoWriting : Bool
deriving DecidableEq

/-- The fragment of `IpFreelyStreamProcessor`'s constructor that computes
`m_useRecordingSchedule` / `m_useMotionSchedule` from `VerifySchedule`
(construction fails — the exception propagates — when a schedule is
malformed). -/
def mkStreamProcToggles (recordingSchedule motionSchedule : Schedule) :
    Except ScheduleError StreamProcToggles := do
  let r ← verifySchedule "Recording" recordingSchedule
  let m ← verifySchedule "Motion" motionSchedule
  Except.ok ⟨r, m, false⟩

/-- `IpFreelyStreamProcessor::StartVideoWriting`: warns and returns
without touching the flag when `m_useRecordingSchedule` is set. -/
def startVideoWriting (st : StreamProcToggles) : StreamProcToggles :=
  if st.useRecordingSchedule then st
  else { st with enableVideoWriting := true }

/-- `IpFreelyStreamProcessor::StopVideoWriting`: warns and returns
without touching the flag when `m_useRecordingSchedule` is set. -/
def stopVideoWriting (st : StreamProcToggles) : StreamProcToggles :=
  if st.useRecordingSchedule then st
  else { st with enableVideoWriting := false }

/-! ## Safe recording FPS (`IpFreelyStreamProcessor.cpp`, lines 505-603,
and `MIN_FPS` / `MAX_FPS` from `IpFreelyCameraDatabase.h`, lines 64-67) -/

/-- `ipfreely::MIN_FPS` (IpFreelyCameraDatabase.h line 64). -/
def MIN_FPS : ℚ := 1

/-- `ipfreely::MAX_FPS` (IpFreelyCameraDatabase.h line 67). -/
def MAX_FPS : ℚ := 60

/-- Stream-processor state touched by `ComputeFps` / `CheckFps`.
Opaque resources recreated by `CheckFps` (the `cv::VideoCapture`, the
event thread) are tracked by generation counters; the motion detector
is tracked by the FPS it was built with (`none` when absent). -/
structure FpsState where
  originalFps : ℚ
  fps : ℚ
  updatePeriodMillisecs : ℕ
  videoWriterOpen : Bool
  motionDetectorFps : Option ℚ
  captureGeneration : ℕ
  eventThreadGeneration : ℕ
deriving DecidableEq

/-- `IpFreelyStreamProcessor::ComputeFps`: cap `m_fps` by the
camera-reported FPS, then clamp from below by `MIN_FPS` and from above
by `MAX_FPS`; return whether the recording FPS moved by more than 0.1. -/
def computeFps (st : FpsState) : FpsState × Bool :=
  let fps0 := st.fps
  let f1 := if st.fps > st.originalFps then st.originalFps else st.fps
  let f2 := if f1 < MIN_FPS then MIN_FPS else f1
  let f3 := if f2 > MAX_FPS then MAX_FPS else f2
  ({ st with fps := f3 }, decide (|fps0 - f3| > 1/10))

/-- `static_cast<unsigned int>(1000.0 / m_fps)`: truncation of a
positive double, i.e. the floor. -/
def periodFromFps (fps : ℚ) : ℕ := ((1000 : ℚ) / fps).floor.toNat

/-- `IpFreelyStreamProcessor::CreateVideoCapture`, abstracted to the
recreation of the capture handle. -/
def createVideoCapture (st : FpsState) : FpsState :=
  { st with captureGeneration := st.captureGeneration + 1 }

/-- `IpFreelyStreamProcessor::CheckFps`: when the camera-reported FPS
drifts from `m_originalFps` by more than 0.1, store the new reported
FPS and recompute the recording FPS; only when THAT changed by more
than 0.1, update the pump period, recreate the capture, release any
open writer, rebuild the motion detector (when present) with the new
FPS, and recreate the event thread. -/
def checkFps (reported : ℚ) (st : FpsState) : FpsState :=
  if |reported - st.originalFps| > 1/10 then
    let p := computeFps { st with originalFps := reported }
    if p.2 then
      let st3 := { p.1 with updatePeriodMillisecs := periodFromFps p.1.fps }
      let st4 := createVideoCapture st3
      let st5 := { st4 with videoWriterOpen := false }
      let st6 := { st5 with motionDetectorFps :=
        if st5.motionDetectorFps.isSome then some st5.fps else none }
      { st6 with eventThreadGeneration := st6.eventThreadGeneration + 1 }
    else p.1
  else st

/-! ## Motion detector writer / hold-off state machine
(`IpFreelyMotionDetector.cpp`, lines 39-64 and 453-585) -/

/-- `ipfreely::HOLD_ON_OFF_SECS` (IpFreelyMotionDetector.cpp line 42). -/
def HOLD_ON_OFF_SECS : ℕ := 10

/-- `m_holdOffFrameCountLimit = ceil(m_fps) * HOLD_ON_OFF_SECS`
(IpFreelyMotionDetector.cpp line 64); `ceilFps` is the already-rounded
`static_cast<size_t>(std::ceil(m_fps))`. -/
def holdOffFrameCountLimit (ceilFps : ℕ) : ℕ := ceilFps * HOLD_ON_OFF_SECS

/-- Construction-time constants of `IpFreelyMotionDetector` used by the
writer state machine. -/
structure MdConfig where
  requiredFileDurationSecs : ℚ
  updatePeriodMillisecs : ℕ
  holdOffFrameCountLimit : ℕ
deriving DecidableEq

/-- Mutable state of the motion detector's recording session:
`m_holdOffFrameCount`, whether `m_videoWriter` holds an open writer,
the `m_writingStream` flag, and `m_fileDurationSecs`. -/
structure MdWriterState where
  holdOffFrameCount : ℕ
  videoWriterOpen : Bool
  writingStream : Bool
  fileDurationSecs : ℚ
deriving DecidableEq

/-- The tail of `IpFreelyMotionDetector::CreateCaptureObjects`: reset
`m_fileDurationSecs`, attempt to open a fresh `cv::VideoWriter`
(success is an environment input `openOk`); on success set the writing
flag, on failure release the writer and leave the flag as it was. -/
def openNewWriter (openOk : Bool) (st : MdWriterState) : MdWriterState :=
  let st0 := { st with fileDurationSecs := 0 }
  if openOk then { st0 with videoWriterOpen := true, writingStream := true }
  else { st0 with videoWriterOpen := false }

/-- `IpFreelyMotionDetector::CreateCaptureObjects`: keep the current
file while it is below the required duration; otherwise rotate (release
the writer, clear the flag) and open a fresh file; when no writer is
open, just open a fresh file. -/
def createCaptureObjects (openOk : Bool) (cfg : MdConfig)
    (st : MdWriterState) : MdWriterState :=
  if st.videoWriterOpen then
    if st.fileDurationSecs < cfg.requiredFileDurationSecs then st
    else openNewWriter openOk
      { st with videoWriterOpen := false, writingStream := false }
  else openNewWriter openOk st

/-- `IpFreelyMotionDetector::WriteVideoFrame`: append the frame and
advance the elapsed-duration counter when a writer is open. -/
def writeVideoFrame (cfg : MdConfig) (st : MdWriterState) : MdWriterState :=
  if st.videoWriterOpen then
    { st with fileDurationSecs :=
        st.fileDurationSecs + (cfg.updatePeriodMillisecs : ℚ) / 1000 }
  else st

/-- The writer-management part of `IpFreelyMotionDetector::MessageHandler`
(lines 453-504): the result of `DetectMotion()` on this frame and the
success of any writer-open attempt are environment inputs. -/
def messageHandlerStep (cfg : MdConfig) (motionDetected openOk : Bool)
    (st : MdWriterState) : MdWriterState :=
  let recording := st.videoWriterOpen
  let st1 :=
    if motionDetected then { st with holdOffFrameCount := 0 }
    else if recording then
      { st with holdOffFrameCount := st.holdOffFrameCount + 1 }
    else st
  let st2 :=
    if st1.holdOffFrameCount = cfg.holdOffFrameCountLimit then
      { st1 with holdOffFrameCount := 0, videoWriterOpen := false,
                 writingStream := false }
    else st1
  let recording2 :=
    if st1.holdOffFrameCount = cfg.holdOffFrameCountLimit then false
    else recording
  let st3 :=
    if motionDetected || recording2 then createCaptureObjects openOk cfg st2
    else st2
  writeVideoFrame cfg st3

/-! ## Three-frame rolling window
(`IpFreelyMotionDetector.cpp`, lines 158-217 and 442-446) -/

/-- Image values as terms recording the operations applied to a source
frame: `src n` is the n-th frame handed to `AddNextFrame`, `grayOf`
is `cv::cvtColor(..., COLOR_BGR2GRAY)`, `resizedOf` is `cv::resize`
by the precomputed `m_motionFrameScalar`. -/
inductive FrameExpr
  | src (id : ℕ)
  | grayOf (f : FrameExpr)
  | resizedOf (f : FrameExpr)
deriving DecidableEq

/-- The motion detector's frame-window state: `m_originalFrame` (the
newly arrived frame), the three grayscale frames, and the
`m_initialiseFrames` one-shot flag. -/
structure MotionFrames where
  originalFrame : FrameExpr
  prevGreyFrame : FrameExpr
  currentGreyFrame : FrameExpr
  nextGreyFrame : FrameExpr
  initialiseFrames : Bool
deriving DecidableEq

/-- `IpFreelyMotionDetector::InitialiseFrames`: on the first processed
frame only, seed `m_prevGreyFrame` and `m_currentGreyFrame` from
`*m_originalFrame` (resized first when shrinking is enabled, then
converted to grayscale). -/
def initialiseFrames (shrink : Bool) (st : MotionFrames) : MotionFrames :=
  if !st.initialiseFrames then st
  else
    let seeded :=
      if shrink then FrameExpr.grayOf (FrameExpr.resizedOf st.originalFrame)
      else FrameExpr.grayOf st.originalFrame
    { st with initialiseFrames := false, prevGreyFrame := seeded,
              currentGreyFrame := seeded }

/-- `IpFreelyMotionDetector::UpdateNextFrame` exactly as written (lines
200-217): when shrinking is enabled the code resizes `m_nextGreyFrame`
from `m_nextGreyFrame` itself — the newly arrived `*m_originalFrame` is
never read in that branch — and then converts the result to grayscale;
without shrinking, `m_nextGreyFrame` is taken from `*m_originalFrame`
and converted to grayscale. -/
def updateNextFrame (shrink : Bool) (st : MotionFrames) : MotionFrames :=
  if shrink then
    { st with nextGreyFrame :=
        FrameExpr.grayOf (FrameExpr.resizedOf st.nextGreyFrame) }
  else
    { st with nextGreyFrame := FrameExpr.grayOf st.originalFrame }

/-- Modelled from the spec: the behaviour the specification describes
for the next-frame update — the 'next' slot is recomputed from the
newly arrived frame, converted to grayscale and, when shrinking is
enabled, downscaled by the precomputed scalar (the same recipe
`InitialiseFrames` uses for the other two slots). -/
def updateNextFrameSpec (shrink : Bool) (st : MotionFrames) : MotionFrames :=
  if shrink then
    { st with nextGreyFrame :=
        FrameExpr.grayOf (FrameExpr.resizedOf st.originalFrame) }
  else
    { st with nextGreyFrame := FrameExpr.grayOf st.originalFrame }

/-- `IpFreelyMotionDetector::RotateFrames` (lines 442-446):
`prev = current; current = next`. -/
def rotateFrames (st : MotionFrames) : MotionFrames :=
  { st with prevGreyFrame := st.currentGreyFrame,
            currentGreyFrame := st.nextGreyFrame }

/-! ## Motion bounding rectangle update
(`IpFreelyMotionDetector.cpp`, lines 341-397) -/

/-- `static_cast<int>` of a C++ `double`: truncation toward zero,
which for a rational is T-division of numerator by denominator. -/
def castToInt (q : ℚ) : ℤ := Int.tdiv q.num q.den

/-- A `cv::Rect`: integer x, y, width, height. -/
structure CvRect where
  x : ℤ
  y : ℤ
  width : ℤ
  height : ℤ
deriving DecidableEq

/-- `cv::Rect::area()`. -/
def CvRect.area (r : CvRect) : ℤ := r.width * r.height

/-- The `cv::Rect(Point, Point)` constructor: the rectangle spanned by
two corner points. -/
def rectFromPoints (x1 y1 x2 y2 : ℤ) : CvRect :=
  ⟨min x1 x2, min y1 y2, max x1 x2 - min x1 x2, max y1 y2 - min y1 y2⟩

/-- The no-qualifying-motion branch of
`IpFreelyMotionDetector::DetectMotion` (lines 381-397): shrink the
current bounding rectangle toward its centre — `width` is multiplied
by the camera's smoothing factor (`motionAreaAveFactor`) and `height`
by 0.25, both truncated back to `int`. -/
def decayMotionRect (aveFactor : ℚ) (r : CvRect) : CvRect :=
  ⟨r.x + castToInt ((r.width : ℚ) * (1/2)),
   r.y + castToInt ((r.height : ℚ) * (1/2)),
   castToInt ((r.width : ℚ) * aveFactor),
   castToInt ((r.height : ℚ) * (1/4))⟩

/-- The smoothing-blend branch of `DetectMotion` (lines 343-380):
rescale the detected box to original-frame coordinates and blend each
corner with the previous rectangle using the rolling-average factor. -/
def blendMotionRect (aveFactor scalar : ℚ) (minX minY maxX maxY : ℤ)
    (r : CvRect) : CvRect :=
  let tl1x := castToInt ((minX : ℚ) / scalar)
  let tl1y := castToInt ((minY : ℚ) / scalar)
  let br1x := castToInt ((maxX : ℚ) / scalar)
  let br1y := castToInt ((maxY : ℚ) / scalar)
  let l := (r.x : ℚ) * aveFactor + (tl1x : ℚ) * (1 - aveFactor)
  let t := (r.y : ℚ) * aveFactor + (tl1y : ℚ) * (1 - aveFactor)
  let rr := ((r.x + r.width : ℤ) : ℚ) * aveFactor + (br1x : ℚ) * (1 - aveFactor)
  let b := ((r.y + r.height : ℤ) : ℚ) * aveFactor + (br1y : ℚ) * (1 - aveFactor)
  rectFromPoints (castToInt l) (castToInt t) (castToInt rr) (castToInt b)

/-- The bounding-rectangle update performed by `DetectMotion` on each
frame, dispatching on whether the scanned motion box exceeds
`m_minImageChangeArea` (line 343). -/
def detectMotionRectUpdate (aveFactor scalar : ℚ) (minImageChangeArea : ℤ)
    (maxBoundingRect : CvRect) (minX minY maxX maxY : ℤ)
    (r : CvRect) : CvRect :=
  if maxBoundingRect.area > minImageChangeArea then
    blendMotionRect aveFactor scalar minX minY maxX maxY r
  else decayMotionRect aveFactor r

/-! ## Display frame conversion
(`IpFreelyStreamProcessor.cpp`, lines 43-84 and 407-414) -/

/-- `CV_MAKETYPE(depth, channels)` for the small depths used here:
`(channels - 1) * 8 + depth`, with depth code 0 for `CV_8U`. -/
def cvMakeType (depth channels : ℕ) : ℕ := (channels - 1) * 8 + depth

/-- `CV_8UC4` (= 24). -/
def CV_8UC4 : ℕ := cvMakeType 0 4

/-- `CV_8UC3` (= 16). -/
def CV_8UC3 : ℕ := cvMakeType 0 3

/-- `CV_8UC1` (= 0). -/
def CV_8UC1 : ℕ := cvMakeType 0 1

/-- A `cv::Mat` as seen by `CvMatToQImage`: its type code, a tag for
its pixel data, and the geometry fields the conversion reads. -/
structure CvMat where
  typeCode : ℕ
  data : ℕ
  cols : ℕ
  rows : ℕ
  step : ℕ
deriving DecidableEq

/-- `QImage` pixel formats used by the conversion. -/
inductive QImageFormat
  | ARGB32
  | RGB888
  | Grayscale8
deriving DecidableEq

/-- A constructed `QImage`'s contents. -/
structure QImageData where
  format : QImageFormat
  data : ℕ
  cols : ℕ
  rows : ℕ
  bytesPerLine : ℕ
  rgbSwapped : Bool
deriving DecidableEq

/-- A `QImage`: either the default-constructed (null/empty) image or a
converted one. -/
inductive QImage
  | empty
  | made (d : QImageData)
deriving DecidableEq

/-- `ipfreely::utils::CvMatToQImage`: convert 8-bit 4-, 3- and
1-channel mats; on any other type code log an error and return `false`
leaving the output image untouched. -/
def cvMatToQImage (inMat : CvMat) (image : QImage) : Bool × QImage :=
  if inMat.typeCode = CV_8UC4 then
    (true, QImage.made ⟨QImageFormat.ARGB32, inMat.data, inMat.cols,
                        inMat.rows, inMat.step, false⟩)
  else if inMat.typeCode = CV_8UC3 then
    (true, QImage.made ⟨QImageFormat.RGB888, inMat.data, inMat.cols,
                        inMat.rows, inMat.step, true⟩)
  else if inMat.typeCode = CV_8UC1 then
    (true, QImage.made ⟨QImageFormat.Grayscale8, inMat.data, inMat.cols,
                        inMat.rows, inMat.step, false⟩)
  else (false, image)

/-- The stream-processor state touched by `GrabVideoFrame`. -/
structure GrabState where
  videoFrame : CvMat
  currentFrame : QImage
  videoFrameUpdated : Bool
deriving DecidableEq

/-- `IpFreelyStreamProcessor::GrabVideoFrame`: store the captured frame,
run the conversion into `m_currentFrame` (its boolean result is
discarded), and mark the frame updated. -/
def grabVideoFrame (captured : CvMat) (st : GrabState) : GrabState :=
  let vf := captured
  let conv := cvMatToQImage vf st.currentFrame
  ⟨vf, conv.2, true⟩

/-- `IpFreelyStreamProcessor::CurrentVideoFrame` (display part). -/
def currentVideoFrame (st : GrabState) : QImage := st.currentFrame

/-! ## Disk space manager (`IpFreelyDiskSpaceManager.cpp`, lines 72-165)

Day-directory names (`YYYYMMDD`) are equal-length digit strings, so
their lexicographic order is the numeric order; they are modelled as
naturals.  Disk-usage readings (`QStorageInfo`) are an environment
input, one reading per query the loop makes. -/

/-- `IpFreelyDiskSpaceManager::DeleteOldestRecording`: refuse (returning
`none`) when at most one sub-directory remains; otherwise sort the
sub-directory list, delete the first (oldest) entry and remove it from
the list. -/
def deleteOldestRecording (subDirs : List ℕ) : Option (List ℕ) :=
  if subDirs.length ≤ 1 then none
  else some (List.insertionSort (· ≤ ·) subDirs).tail

/-- `IpFreelyDiskSpaceManager::CheckUsedDiskSpace`: loop while the
used-space percentage read this iteration exceeds the limit, deleting
the oldest recording each time; stop when deletion refuses. -/
def checkUsedDiskSpace (usage : ℕ → ℤ) (maxPercentUsedSpace : ℤ) :
    ℕ → List ℕ → List ℕ
  | i, subDirs =>
    if usage i > maxPercentUsedSpace then
      match h : deleteOldestRecording subDirs with
      | none => subDirs
      | some d => checkUsedDiskSpace usage maxPercentUsedSpace (i + 1) d
    else subDirs
termination_by i subDirs => subDirs.length
decreasing_by
  simp only [deleteOldestRecording] at h
  split at h
  · exact absurd h (by simp)
  · rename_i hlen
    cases h
    have hs : (List.insertionSort (· ≤ ·) subDirs).length = subDirs.length :=
      (List.perm_insertionSort (· ≤ ·) subDirs).length_eq
    simp only [List.length_tail, hs]
    omega

/-- `IpFreelyDiskSpaceManager::CheckNumDaysDataStored`: loop while more
day-directories remain than the retention count, deleting the oldest
each time; stop when deletion refuses. -/
def checkNumDaysDataStored (maxNumDaysToStore : ℕ) :
    List ℕ → List ℕ
  | subDirs =>
    if subDirs.length > maxNumDaysToStore then
      match h : deleteOldestRecording subDirs with
      | none => subDirs
      | some d => checkNumDaysDataStored maxNumDaysToStore d
    else subDirs
termination_by subDirs => subDirs.length
decreasing_by
  show d.length < subDirs.length
  have hlen2 : ¬ subDirs.length ≤ 1 := by
    intro hc
    simp [deleteOldestRecording, hc] at h
  have hd : d = (List.insertionSort (· ≤ ·) subDirs).tail := by
    simp [deleteOldestRecording, hlen2] at h
    exact h.symm
  have hs : (List.insertionSort (· ≤ ·) subDirs).length = subDirs.length :=
    (List.perm_insertionSort (· ≤ ·) subDirs).length_eq
  subst hd
  simp only [List.length_tail, hs]
  omega

/-- `IpFreelyDiskSpaceManager::ThreadEventCallback`: list the recording
sub-directories, then run the used-space check followed by the
day-count check. -/
def diskManagerTick (usage : ℕ → ℤ) (maxPercentUsedSpace : ℤ)
    (maxNumDaysToStore : ℕ) (subDirs : List ℕ) : List ℕ :=
  checkNumDaysDataStored maxNumDaysToStore
    (checkUsedDiskSpace usage maxPercentUsedSpace 0 subDirs)

/-! # Theorems -/

/-! ## C5: `VerifySchedule` shape checking -/

/-- C5 counterexample: a non-empty 7-row schedule whose first row has 24
entries but whose remaining rows have 23 entries is NOT rejected with a
shape error — `VerifySchedule` only inspects `schedule.front()`.  This
refutes the claim that every non-empty schedule that does not have
exactly 7 rows with each row having exactly 24 columns fails with a
shape error. -/
theorem verifySchedule_raggedSchedule_no_error :
    (List.replicate 24 false :: List.replicate 6 (List.replicate 23 true)
        : Schedule) ≠ [] ∧
    (List.replicate 24 false :: List.replicate 6 (List.replicate 23 true)
        : Schedule).length = 7 ∧
    ¬ (∀ row ∈ (List.replicate 24 false ::
          List.replicate 6 (List.replicate 23 true) : Schedule),
        row.length = 24) ∧
    verifySchedule "Recording"
      (List.replicate 24 false :: List.replicate 6 (List.replicate 23 true))
      = Except.ok true := by
  refine ⟨by decide, by decide, ?_, rfl⟩
  intro hall
  have h2 := hall (List.replicate 23 true) (by decide)
  simp at h2

/-- C5 (amended): for every empty schedule `VerifySchedule` returns
"not enabled" without error; a non-empty schedule is rejected with a
shape error exactly when it does not have 7 rows with the FIRST row
having 24 columns; a non-empty schedule passing that check returns,
without error, whether at least one cell is true. -/
theorem verifySchedule_shape_spec (scheduleId : String) (s : Schedule) :
    (s = [] → verifySchedule scheduleId s = Except.ok false) ∧
    (s ≠ [] → s.length ≠ 7 ∨ s.headI.length ≠ 24 →
      ∃ e, verifySchedule scheduleId s = Except.error e) ∧
    (s ≠ [] → s.length = 7 → s.headI.length = 24 →
      verifySchedule scheduleId s = Except.ok (isScheduleEnabled s) ∧
      (isScheduleEnabled s = true ↔ ∃ day ∈ s, ∃ hr ∈ day, hr = true)) := by
  refine ⟨fun he => by simp [verifySchedule, he], ?_, ?_⟩
  · intro hne hbad
    rcases hbad with hd | hh
    · exact ⟨ScheduleError.incorrectNumberOfDays scheduleId,
        by simp [verifySchedule, List.isEmpty_iff, hne, hd]⟩
    · by_cases hd : s.length = 7
      · exact ⟨ScheduleError.incorrectNumberOfHours scheduleId,
          by simp [verifySchedule, List.isEmpty_iff, hne, hd, hh]⟩
      · exact ⟨ScheduleError.incorrectNumberOfDays scheduleId,
          by simp [verifySchedule, List.isEmpty_iff, hne, hd]⟩
  · intro hne hd hh
    refine ⟨by simp [verifySchedule, List.isEmpty_iff, hne, hd, hh], ?_⟩
    simp [isScheduleEnabled, List.any_eq_true]

/-- Witness for `verifySchedule_shape_spec` at concrete schedules. -/
theorem verifySchedule_shape_spec_witness :
    verifySchedule "Motion" [] = Except.ok false ∧
    (∃ e, verifySchedule "Motion" [[true]] = Except.error e) ∧
    verifySchedule "Motion" (List.replicate 7 (List.replicate 24 false))
      = Except.ok (isScheduleEnabled
          (List.replicate 7 (List.replicate 24 false))) := by
  refine ⟨(verifySchedule_shape_spec "Motion" []).1 rfl, ?_, ?_⟩
  · exact (verifySchedule_shape_spec "Motion" [[true]]).2.1 (by decide)
      (by decide)
  · exact ((verifySchedule_shape_spec "Motion"
      (List.replicate 7 (List.replicate 24 false))).2.2 (by decide)
      (by decide) (by decide)).1

/-! ## C4: manual recording toggles under a recording schedule -/

/-- C4 counterexample: a stream processor constructed with a NON-EMPTY
recording schedule all of whose cells are false has
`m_useRecordingSchedule = false`, so `StartVideoWriting` flips the
enable-video-writing flag from false to true — it is not a no-op.  This
refutes the claim that every call on a processor constructed with a
non-empty recording schedule leaves the flag unchanged. -/
theorem startVideoWriting_nonEmptyDisabledSchedule_changes_flag :
    (List.replicate 7 (List.replicate 24 false) : Schedule) ≠ [] ∧
    mkStreamProcToggles (List.replicate 7 (List.replicate 24 false)) []
      = Except.ok ⟨false, false, false⟩ ∧
    (startVideoWriting ⟨false, false, false⟩).enableVideoWriting = true ∧
    (stopVideoWriting ⟨false, false, true⟩).enableVideoWriting = false := by
  refine ⟨by decide, rfl, by decide, by decide⟩

/-- C4 (amended): `StartVideoWriting` and `StopVideoWriting` are no-ops
for every stream processor constructed with a recording schedule that
`VerifySchedule` reports as enabled (non-empty, well-shaped and with at
least one true cell). -/
theorem startStopVideoWriting_noop_of_enabledSchedule
    (rs ms : Schedule) (st : StreamProcToggles)
    (hmk : mkStreamProcToggles rs ms = Except.ok st)
    (hen : verifySchedule "Recording" rs = Except.ok true) :
    startVideoWriting st = st ∧ stopVideoWriting st = st := by
  have hst : st.useRecordingSchedule = true := by
    simp only [mkStreamProcToggles, hen, bind, Except.bind] at hmk
    cases hms : verifySchedule "Motion" ms with
    | error e => rw [hms] at hmk; exact absurd hmk (by simp)
    | ok m =>
        rw [hms] at hmk
        simp only [Except.ok.injEq] at hmk
        rw [← hmk]
  simp [startVideoWriting, stopVideoWriting, hst]

/-- Witness for `startStopVideoWriting_noop_of_enabledSchedule` at an
enabled 7×24 schedule. -/
theorem startStopVideoWriting_noop_witness :
    startVideoWriting ⟨true, false, false⟩ = ⟨true, false, false⟩ ∧
    stopVideoWriting ⟨true, false, false⟩ = ⟨true, false, false⟩ :=
  startStopVideoWriting_noop_of_enabledSchedule
    (List.replicate 7 (List.replicate 24 true)) [] ⟨true, false, false⟩
    rfl rfl

/-! ## C7: the safe recording FPS -/

/-- C7 counterexample: when the camera reports 0 FPS (as broken captures
do), `ComputeFps` clamps the recording FPS up to `MIN_FPS = 1`, which
EXCEEDS the camera-reported FPS.  This refutes the claim that the
recomputed recording FPS never exceeds the camera-reported FPS. -/
theorem computeFps_exceeds_reported_when_below_min :
    (computeFps ⟨0, 25, 40, false, none, 0, 0⟩).1.fps = 1 ∧
    ¬ (computeFps ⟨0, 25, 40, false, none, 0, 0⟩).1.fps
        ≤ (⟨0, 25, 40, false, none, 0, 0⟩ : FpsState).originalFps := by
  constructor <;> norm_num [computeFps, MIN_FPS, MAX_FPS]

/-- C7 (amended): every recomputation of the recording FPS lands in
`[MIN_FPS, MAX_FPS] = [1, 60]`, and it never exceeds the camera-reported
FPS provided the reported FPS is at least the minimum allowed FPS. -/
theorem computeFps_clamped_spec (st : FpsState) :
    MIN_FPS ≤ (computeFps st).1.fps ∧ (computeFps st).1.fps ≤ MAX_FPS ∧
    (MIN_FPS ≤ st.originalFps →
      (computeFps st).1.fps ≤ st.originalFps) := by
  simp only [computeFps, MIN_FPS, MAX_FPS]
  split_ifs with h1 h2 h3 <;>
    refine ⟨?_, ?_, fun ho => ?_⟩ <;> simp_all <;> linarith

/-- Witness for `computeFps_clamped_spec` at a concrete state with a
validly reporting camera. -/
theorem computeFps_clamped_spec_witness :
    MIN_FPS ≤ (computeFps ⟨25, 30, 0, false, none, 0, 0⟩).1.fps ∧
    (computeFps ⟨25, 30, 0, false, none, 0, 0⟩).1.fps ≤ MAX_FPS ∧
    (computeFps ⟨25, 30, 0, false, none, 0, 0⟩).1.fps ≤ (25 : ℚ) :=
  ⟨(computeFps_clamped_spec ⟨25, 30, 0, false, none, 0, 0⟩).1,
   (computeFps_clamped_spec ⟨25, 30, 0, false, none, 0, 0⟩).2.1,
   (computeFps_clamped_spec ⟨25, 30, 0, false, none, 0, 0⟩).2.2
     (by norm_num [MIN_FPS])⟩

/-! ## C9: unsupported frame formats -/

/-- C9 counterexample: grabbing a 16-bit single-channel frame (an
unsupported format) leaves the display frame holding the PREVIOUSLY
converted image, not an empty/placeholder frame — `GrabVideoFrame`
discards `CvMatToQImage`'s false return and the conversion leaves its
output argument untouched.  This refutes the claim that the display
frame becomes an empty/placeholder frame. -/
theorem grabVideoFrame_unsupported_keeps_previous_frame :
    (cvMatToQImage ⟨cvMakeType 2 1, 9, 640, 480, 1280⟩
      (QImage.made ⟨QImageFormat.RGB888, 7, 640, 480, 1920, true⟩)).1
      = false ∧
    currentVideoFrame (grabVideoFrame ⟨cvMakeType 2 1, 9, 640, 480, 1280⟩
      ⟨⟨CV_8UC3, 7, 640, 480, 1920⟩,
       QImage.made ⟨QImageFormat.RGB888, 7, 640, 480, 1920, true⟩, true⟩)
      = QImage.made ⟨QImageFormat.RGB888, 7, 640, 480, 1920, true⟩ ∧
    currentVideoFrame (grabVideoFrame ⟨cvMakeType 2 1, 9, 640, 480, 1280⟩
      ⟨⟨CV_8UC3, 7, 640, 480, 1920⟩,
       QImage.made ⟨QImageFormat.RGB888, 7, 640, 480, 1920, true⟩, true⟩)
      ≠ QImage.empty := by
  refine ⟨by decide, by decide, by decide⟩

/-- C9 (amended): for every grabbed frame whose type code is none of the
supported 8-bit 1-, 3- or 4-channel formats, the conversion reports
failure (the error is logged) and leaves the display frame unchanged —
`CurrentVideoFrame` keeps exposing the previously converted frame,
which is the empty default image only if no frame was ever converted —
and the embedded conversion is a total function, so no exception
crosses the frame-conversion boundary. -/
theorem grabVideoFrame_unsupported_spec (mat : CvMat) (st : GrabState)
    (h4 : mat.typeCode ≠ CV_8UC4) (h3 : mat.typeCode ≠ CV_8UC3)
    (h1 : mat.typeCode ≠ CV_8UC1) :
    cvMatToQImage mat st.currentFrame = (false, st.currentFrame) ∧
    currentVideoFrame (grabVideoFrame mat st) = currentVideoFrame st ∧
    (grabVideoFrame mat st).videoFrame = mat ∧
    (grabVideoFrame mat st).videoFrameUpdated = true := by
  refine ⟨by simp [cvMatToQImage, h4, h3, h1], ?_, rfl, rfl⟩
  simp [currentVideoFrame, grabVideoFrame, cvMatToQImage, h4, h3, h1]

/-- Witness for `grabVideoFrame_unsupported_spec` at a 16-bit
single-channel mat. -/
theorem grabVideoFrame_unsupported_spec_witness :
    cvMatToQImage ⟨cvMakeType 2 1, 9, 640, 480, 1280⟩ QImage.empty
      = (false, QImage.empty) ∧
    currentVideoFrame (grabVideoFrame ⟨cvMakeType 2 1, 9, 640, 480, 1280⟩
      ⟨⟨CV_8UC1, 5, 2, 2, 2⟩, QImage.empty, false⟩)
      = currentVideoFrame ⟨⟨CV_8UC1, 5, 2, 2, 2⟩, QImage.empty, false⟩ := by
  have h := grabVideoFrame_unsupported_spec
    ⟨cvMakeType 2 1, 9, 640, 480, 1280⟩
    ⟨⟨CV_8UC1, 5, 2, 2, 2⟩, QImage.empty, false⟩
    (by decide) (by decide) (by decide)
  exact ⟨h.1, h.2.1⟩

/-! ## C2: the next-frame update of the rolling window -/

/-- C2: with frame-shrinking enabled, `UpdateNextFrame` resizes and
re-grayscales the STALE `m_nextGreyFrame` instead of reading the newly
arrived `*m_originalFrame`: the result is independent of the arrived
frame, diverging from the specified recomputation (which
`InitialiseFrames` performs correctly for the other two slots).  The
window rotation itself (`prev = current; current = next`) matches the
claim. -/
theorem updateNextFrame_shrink_ignores_new_frame :
    (updateNextFrame true
        ⟨FrameExpr.src 1, FrameExpr.grayOf (FrameExpr.src 0),
         FrameExpr.grayOf (FrameExpr.src 0), FrameExpr.src 0,
         false⟩).nextGreyFrame
      = FrameExpr.grayOf (FrameExpr.resizedOf (FrameExpr.src 0)) ∧
    (updateNextFrameSpec true
        ⟨FrameExpr.src 1, FrameExpr.grayOf (FrameExpr.src 0),
         FrameExpr.grayOf (FrameExpr.src 0), FrameExpr.src 0,
         false⟩).nextGreyFrame
      = FrameExpr.grayOf (FrameExpr.resizedOf (FrameExpr.src 1)) ∧
    (updateNextFrame true
        ⟨FrameExpr.src 1, FrameExpr.grayOf (FrameExpr.src 0),
         FrameExpr.grayOf (FrameExpr.src 0), FrameExpr.src 0,
         false⟩).nextGreyFrame
      ≠ (updateNextFrameSpec true
        ⟨FrameExpr.src 1, FrameExpr.grayOf (FrameExpr.src 0),
         FrameExpr.grayOf (FrameExpr.src 0), FrameExpr.src 0,
         false⟩).nextGreyFrame ∧
    (∀ f g : FrameExpr,
      (updateNextFrame true
        ⟨f, FrameExpr.grayOf (FrameExpr.src 0),
         FrameExpr.grayOf (FrameExpr.src 0), FrameExpr.src 0,
         false⟩).nextGreyFrame
      = (updateNextFrame true
        ⟨g, FrameExpr.grayOf (FrameExpr.src 0),
         FrameExpr.grayOf (FrameExpr.src 0), FrameExpr.src 0,
         false⟩).nextGreyFrame) := by
  refine ⟨by decide, by decide, by decide, fun f g => rfl⟩

/-! ## C10: the writing flag tracks the open writer -/

set_option maxHeartbeats 1600000 in
/-- C10: processing one frame preserves the invariant that
`WritingStream()` reports true exactly when a video writer is held
open, whatever `DetectMotion` reported and whether or not any attempted
writer open succeeded. -/
theorem writingStream_iff_writerOpen_invariant (cfg : MdConfig)
    (motionDetected openOk : Bool) (st : MdWriterState)
    (hinv : st.writingStream = st.videoWriterOpen) :
    (messageHandlerStep cfg motionDetected openOk st).writingStream
      = (messageHandlerStep cfg motionDetected openOk st).videoWriterOpen := by
  obtain ⟨c, w, f, d⟩ := st
  simp only at hinv
  cases w <;> cases f <;>
    first
      | exact absurd hinv (by decide)
      | (cases motionDetected <;> cases openOk <;>
          (unfold messageHandlerStep createCaptureObjects openNewWriter
            writeVideoFrame
           simp only []
           split_ifs <;> first | rfl | simp_all))

/-- Witness for `writingStream_iff_writerOpen_invariant` at the initial
detector state. -/
theorem writingStream_iff_writerOpen_invariant_witness :
    (messageHandlerStep ⟨600, 40, 250⟩ true true
        ⟨0, false, false, 0⟩).writingStream
      = (messageHandlerStep ⟨600, 40, 250⟩ true true
        ⟨0, false, false, 0⟩).videoWriterOpen :=
  writingStream_iff_writerOpen_invariant ⟨600, 40, 250⟩ true true
    ⟨0, false, false, 0⟩ rfl

/-! ## C1: the hold-off window -/

/-- One no-motion frame while the writer is open and the hold-off limit
is not yet reached: the session stays open, the flag stays true and the
hold-off counter advances by one. -/
theorem messageHandlerStep_noMotion_stillOpen (cfg : MdConfig)
    (st : MdWriterState) (hopen : st.videoWriterOpen = true)
    (hw : st.writingStream = true)
    (hne : st.holdOffFrameCount + 1 ≠ cfg.holdOffFrameCountLimit) :
    (messageHandlerStep cfg false true st).videoWriterOpen = true ∧
    (messageHandlerStep cfg false true st).writingStream = true ∧
    (messageHandlerStep cfg false true st).holdOffFrameCount
      = st.holdOffFrameCount + 1 := by
  obtain ⟨c, w, f, d⟩ := st
  simp only at hopen hw hne
  subst hopen; subst hw
  simp only [messageHandlerStep, createCaptureObjects, openNewWriter,
    writeVideoFrame]
  split_ifs <;> simp_all

/-- The no-motion frame on which the hold-off counter reaches the limit:
the writer is released and the writing flag cleared. -/
theorem messageHandlerStep_noMotion_close (cfg : MdConfig)
    (st : MdWriterState) (hopen : st.videoWriterOpen = true)
    (heq : st.holdOffFrameCount + 1 = cfg.holdOffFrameCountLimit) :
    (messageHandlerStep cfg false true st).videoWriterOpen = false ∧
    (messageHandlerStep cfg false true st).writingStream = false := by
  obtain ⟨c, w, f, d⟩ := st
  simp only at hopen heq
  subst hopen
  simp only [messageHandlerStep, createCaptureObjects, openNewWriter,
    writeVideoFrame]
  split_ifs <;> simp_all

/-- Iterating no-motion frames below the hold-off limit keeps the
session open while the counter accumulates. -/
theorem messageHandlerStep_noMotion_iterate (cfg : MdConfig) :
    ∀ (n : ℕ) (st : MdWriterState), st.videoWriterOpen = true →
      st.writingStream = true →
      st.holdOffFrameCount + n < cfg.holdOffFrameCountLimit →
      ((messageHandlerStep cfg false true)^[n] st).videoWriterOpen = true ∧
      ((messageHandlerStep cfg false true)^[n] st).writingStream = true ∧
      ((messageHandlerStep cfg false true)^[n] st).holdOffFrameCount
        = st.holdOffFrameCount + n := by
  intro n
  induction n with
  | zero => exact fun st h1 h2 _ => ⟨h1, h2, rfl⟩
  | succ n ih =>
      intro st h1 h2 h3
      rw [Function.iterate_succ_apply]
      have hne : st.holdOffFrameCount + 1 ≠ cfg.holdOffFrameCountLimit := by
        omega
      obtain ⟨o1, o2, o3⟩ :=
        messageHandlerStep_noMotion_stillOpen cfg st h1 h2 hne
      obtain ⟨p1, p2, p3⟩ :=
        ih (messageHandlerStep cfg false true st) o1 o2 (by rw [o3]; omega)
      exact ⟨p1, p2, by rw [p3, o3]; omega⟩

/-- C1: for a motion detector built with frame rate `fps` (so a
hold-off limit of `ceil(fps) * 10` frames) and a freshly (re)triggered
open recording session, `ceil(fps) * 10 - 1` consecutive no-motion
frames leave the session open with `WritingStream()` true, and the next
no-motion frame — the `ceil(fps) * 10`-th — releases the video writer
and makes `WritingStream()` false.  Writer rotation during the window
is assumed to succeed (`openOk = true`). -/
theorem motionHoldOff_closes_after_limit (ceilFps : ℕ) (hfps : 1 ≤ ceilFps)
    (required dur : ℚ) (period : ℕ) :
    (((messageHandlerStep ⟨required, period, holdOffFrameCountLimit ceilFps⟩
        false true)^[holdOffFrameCountLimit ceilFps - 1]
        (⟨0, true, true, dur⟩ : MdWriterState)).videoWriterOpen = true ∧
     ((messageHandlerStep ⟨required, period, holdOffFrameCountLimit ceilFps⟩
        false true)^[holdOffFrameCountLimit ceilFps - 1]
        (⟨0, true, true, dur⟩ : MdWriterState)).writingStream = true) ∧
    (((messageHandlerStep ⟨required, period, holdOffFrameCountLimit ceilFps⟩
        false true)^[holdOffFrameCountLimit ceilFps]
        (⟨0, true, true, dur⟩ : MdWriterState)).videoWriterOpen = false ∧
     ((messageHandlerStep ⟨required, period, holdOffFrameCountLimit ceilFps⟩
        false true)^[holdOffFrameCountLimit ceilFps]
        (⟨0, true, true, dur⟩ : MdWriterState)).writingStream = false) := by
  have hlim : 1 ≤ holdOffFrameCountLimit ceilFps := by
    simp only [holdOffFrameCountLimit, HOLD_ON_OFF_SECS]
    omega
  obtain ⟨o1, o2, o3⟩ := messageHandlerStep_noMotion_iterate
    ⟨required, period, holdOffFrameCountLimit ceilFps⟩
    (holdOffFrameCountLimit ceilFps - 1) ⟨0, true, true, dur⟩
    rfl rfl
    (by
      show (0 : ℕ) + (holdOffFrameCountLimit ceilFps - 1)
        < holdOffFrameCountLimit ceilFps
      omega)
  refine ⟨⟨o1, o2⟩, ?_⟩
  have hiter : (messageHandlerStep
        ⟨required, period, holdOffFrameCountLimit ceilFps⟩
        false true)^[holdOffFrameCountLimit ceilFps]
      = (messageHandlerStep
        ⟨required, period, holdOffFrameCountLimit ceilFps⟩
        false true)^[(holdOffFrameCountLimit ceilFps - 1) + 1] := by
    have hsucc : holdOffFrameCountLimit ceilFps
        = (holdOffFrameCountLimit ceilFps - 1) + 1 := by omega
    rw [← hsucc]
  rw [hiter, Function.iterate_succ_apply']
  exact messageHandlerStep_noMotion_close
    ⟨required, period, holdOffFrameCountLimit ceilFps⟩ _ o1
    (by
      rw [o3]
      show (0 : ℕ) + (holdOffFrameCountLimit ceilFps - 1) + 1
        = holdOffFrameCountLimit ceilFps
      omega)

/-- Witness for `motionHoldOff_closes_after_limit` at `ceil(fps) = 1`
(hold-off limit 10 frames). -/
theorem motionHoldOff_closes_after_limit_witness :
    (((messageHandlerStep ⟨5, 100, holdOffFrameCountLimit 1⟩
        false true)^[holdOffFrameCountLimit 1 - 1]
        (⟨0, true, true, 0⟩ : MdWriterState)).writingStream = true) ∧
    (((messageHandlerStep ⟨5, 100, holdOffFrameCountLimit 1⟩
        false true)^[holdOffFrameCountLimit 1]
        (⟨0, true, true, 0⟩ : MdWriterState)).writingStream = false) :=
  ⟨(motionHoldOff_closes_after_limit 1 (by norm_num) 5 0 100).1.2,
   (motionHoldOff_closes_after_limit 1 (by norm_num) 5 0 100).2.2⟩

/-! ## C6: reaction to FPS drift -/

/-- When the reported FPS drifts by more than 0.1 but the recomputed
recording FPS moved by at most 0.1, `CheckFps` only stores the new
reported FPS and the clamped recording FPS — nothing is recreated. -/
theorem checkFps_drift_noChange (reported : ℚ) (st : FpsState)
    (hdrift : |reported - st.originalFps| > 1/10)
    (hunchanged : (computeFps { st with originalFps := reported }).2
      = false) :
    checkFps reported st
      = (computeFps { st with originalFps := reported }).1 := by
  unfold checkFps
  rw [if_pos hdrift]
  simp only [hunchanged, Bool.false_eq_true, if_false]

/-- C6 counterexample: the camera-reported FPS drifts from 30 to 40
(far more than 0.1), but because the recording FPS stays capped at the
preferred 20 fps, `CheckFps` performs NO re-creation: the capture
handle, event thread, motion detector and the open video writer all
survive.  This refutes the claim that every reported-FPS drift greater
than 0.1 triggers the full re-creation. -/
theorem checkFps_drift_without_recreation :
    |(40 : ℚ) - (⟨30, 20, 50, true, some 20, 0, 0⟩
        : FpsState).originalFps| > 1/10 ∧
    (checkFps 40 ⟨30, 20, 50, true, some 20, 0, 0⟩).videoWriterOpen
      = true ∧
    (checkFps 40 ⟨30, 20, 50, true, some 20, 0, 0⟩).captureGeneration
      = 0 ∧
    (checkFps 40 ⟨30, 20, 50, true, some 20, 0, 0⟩).eventThreadGeneration
      = 0 ∧
    (checkFps 40 ⟨30, 20, 50, true, some 20, 0, 0⟩).motionDetectorFps
      = some 20 ∧
    (checkFps 40 ⟨30, 20, 50, true, some 20, 0, 0⟩).updatePeriodMillisecs
      = 50 := by
  have habs : |(40 : ℚ) - (⟨30, 20, 50, true, some 20, 0, 0⟩
      : FpsState).originalFps| > 1/10 := by norm_num
  have hch : (computeFps ⟨40, 20, 50, true, some 20, 0, 0⟩).2 = false := by
    norm_num [computeFps, MIN_FPS, MAX_FPS]
  have hmain := checkFps_drift_noChange 40 ⟨30, 20, 50, true, some 20, 0, 0⟩
    habs hch
  rw [hmain]
  refine ⟨habs, ?_, ?_, ?_, ?_, ?_⟩ <;>
    norm_num [computeFps, MIN_FPS, MAX_FPS]

/-- C6 (amended): when the reported FPS drifts by more than 0.1 AND the
recomputed recording FPS differs from the previous recording FPS by
more than 0.1, `CheckFps` performs the full re-creation: new pump
period `1000 / fps` ms, fresh capture handle, released video writer, a
motion detector rebuilt with the new FPS (when one was present), and a
fresh event thread. -/
theorem checkFps_full_recreation_spec (reported : ℚ) (st : FpsState)
    (hdrift : |reported - st.originalFps| > 1/10)
    (hchanged : (computeFps { st with originalFps := reported }).2 = true) :
    checkFps reported st =
      { originalFps := reported,
        fps := (computeFps { st with originalFps := reported }).1.fps,
        updatePeriodMillisecs :=
          periodFromFps (computeFps { st with originalFps := reported }).1.fps,
        videoWriterOpen := false,
        motionDetectorFps :=
          if st.motionDetectorFps.isSome then
            some (computeFps { st with originalFps := reported }).1.fps
          else none,
        captureGeneration := st.captureGeneration + 1,
        eventThreadGeneration := st.eventThreadGeneration + 1 } := by
  unfold checkFps
  rw [if_pos hdrift]
  simp only [hchanged, if_true, createVideoCapture]
  rfl

/-- Witness for `checkFps_full_recreation_spec`: the specification's own
scenario — reported FPS 25 at startup (recording FPS 25, period 40 ms),
capture later reports 15. -/
theorem checkFps_full_recreation_spec_witness :
    checkFps 15 ⟨25, 25, 40, true, some 25, 3, 5⟩ =
      { originalFps := 15,
        fps := (computeFps ⟨15, 25, 40, true, some 25, 3, 5⟩).1.fps,
        updatePeriodMillisecs :=
          periodFromFps (computeFps ⟨15, 25, 40, true, some 25, 3, 5⟩).1.fps,
        videoWriterOpen := false,
        motionDetectorFps :=
          if (some (25 : ℚ)).isSome then
            some (computeFps ⟨15, 25, 40, true, some 25, 3, 5⟩).1.fps
          else none,
        captureGeneration := 3 + 1,
        eventThreadGeneration := 5 + 1 } :=
  checkFps_full_recreation_spec 15 ⟨25, 25, 40, true, some 25, 3, 5⟩
    (by rw [abs_sub_comm]; norm_num)
    (by norm_num [computeFps, MIN_FPS, MAX_FPS])

/-! ## C3: geometric decay of the motion bounding rectangle -/

/-- `static_cast<int>` agrees with the floor on non-negative values. -/
theorem castToInt_eq_floor {q : ℚ} (hq : 0 ≤ q) : castToInt q = ⌊q⌋ := by
  unfold castToInt
  rw [Int.tdiv_eq_ediv (Rat.num_nonneg.mpr hq) (by exact_mod_cast Nat.zero_le _)]
  exact Rat.floor_def.symm

/-- Truncating `w * f` for `0 ≤ w` and `0 ≤ f ≤ 1` stays in `[0, w]`. -/
theorem castToInt_mul_le (w : ℤ) (f : ℚ) (hw : 0 ≤ w) (hf0 : 0 ≤ f)
    (hf1 : f ≤ 1) :
    0 ≤ castToInt ((w : ℚ) * f) ∧ castToInt ((w : ℚ) * f) ≤ w := by
  have hwq : (0 : ℚ) ≤ (w : ℚ) := by exact_mod_cast hw
  have hq : 0 ≤ (w : ℚ) * f := mul_nonneg hwq hf0
  rw [castToInt_eq_floor hq]
  refine ⟨Int.floor_nonneg.mpr hq, ?_⟩
  calc ⌊(w : ℚ) * f⌋ ≤ ⌊(w : ℚ)⌋ :=
        Int.floor_le_floor (by nlinarith)
    _ = w := Int.floor_intCast w

/-- The decayed height is the integer quarter of the old height. -/
theorem decayMotionRect_height (f : ℚ) (s : CvRect) (hh : 0 ≤ s.height) :
    (decayMotionRect f s).height = ((s.height.toNat / 4 : ℕ) : ℤ) := by
  show castToInt ((s.height : ℚ) * (1/4)) = _
  have hq : 0 ≤ (s.height : ℚ) * (1/4) :=
    mul_nonneg (by exact_mod_cast hh) (by norm_num)
  have h2 : ((s.height.toNat : ℕ) : ℤ) = s.height := Int.toNat_of_nonneg hh
  calc castToInt ((s.height : ℚ) * (1/4)) = s.height / 4 := by
        rw [castToInt_eq_floor hq, mul_one_div,
          show ((4:ℚ)) = ((4:ℕ):ℚ) by norm_num,
          Rat.floor_intCast_div_natCast]
        norm_num
    _ = ((s.height.toNat / 4 : ℕ) : ℤ) := by
        rw [← h2]
        exact_mod_cast (Int.ofNat_ediv s.height.toNat 4).symm

/-- Dimensions along the decay iteration: the width stays non-negative
and the height is the initial height divided by `4 ^ n`. -/
theorem decay_iter_dims (f : ℚ) (hf0 : 0 ≤ f) (hf1 : f ≤ 1) (r : CvRect)
    (hw : 0 ≤ r.width) (hh : 0 ≤ r.height) :
    ∀ n : ℕ, 0 ≤ ((decayMotionRect f)^[n] r).width ∧
      ((decayMotionRect f)^[n] r).height
        = ((r.height.toNat / 4 ^ n : ℕ) : ℤ) := by
  intro n
  induction n with
  | zero =>
      refine ⟨hw, ?_⟩
      simp [Int.toNat_of_nonneg hh]
  | succ n ih =>
      obtain ⟨ihw, ihh⟩ := ih
      rw [Function.iterate_succ_apply']
      constructor
      · exact (castToInt_mul_le _ f ihw hf0 hf1).1
      · have hnn : 0 ≤ ((decayMotionRect f)^[n] r).height := by
          rw [ihh]; exact_mod_cast Nat.zero_le _
        rw [decayMotionRect_height f _ hnn, ihh, Int.toNat_natCast,
          Nat.div_div_eq_div_mul, ← pow_succ]

/-- One decay step never increases the rectangle's area, given
non-negative dimensions and a smoothing factor in `[0, 1]`. -/
theorem decay_area_le (f : ℚ) (hf0 : 0 ≤ f) (hf1 : f ≤ 1) (s : CvRect)
    (hw : 0 ≤ s.width) (hh : 0 ≤ s.height) :
    (decayMotionRect f s).area ≤ s.area ∧ 0 ≤ (decayMotionRect f s).area := by
  obtain ⟨hw0, hwle⟩ := castToInt_mul_le s.width f hw hf0 hf1
  have hh1 : (decayMotionRect f s).height = ((s.height.toNat / 4 : ℕ) : ℤ) :=
    decayMotionRect_height f s hh
  have hh0 : 0 ≤ (decayMotionRect f s).height := by
    rw [hh1]; exact_mod_cast Nat.zero_le _
  have hhle : (decayMotionRect f s).height ≤ s.height := by
    rw [hh1, ← Int.toNat_of_nonneg hh]
    exact_mod_cast Nat.div_le_self _ _
  have harea : (decayMotionRect f s).width * (decayMotionRect f s).height
      ≤ s.width * s.height := mul_le_mul hwle hhle hh0 hw
  exact ⟨harea, mul_nonneg hw0 hh0⟩

/-- C3: starting from any rectangle with positive width and height and a
smoothing factor in `[0, 1]`, under frames with no qualifying motion
(`maxBoundingRect.area() ≤ m_minImageChangeArea`) the bounding-rectangle
update always takes the decay branch, where the width is multiplied by
the smoothing factor and the height by 0.25, truncated to integers; the
area never increases from one frame to the next; and the area is
exactly zero after at most `initial height` frames. -/
theorem motionRect_decay_spec (f scalar : ℚ) (hf0 : 0 ≤ f) (hf1 : f ≤ 1)
    (minImageChangeArea : ℤ) (maxBoundingRect : CvRect)
    (minX minY maxX maxY : ℤ)
    (hq : ¬ maxBoundingRect.area > minImageChangeArea)
    (r : CvRect) (hw : 0 < r.width) (hh : 0 < r.height) :
    (∀ s : CvRect,
      detectMotionRectUpdate f scalar minImageChangeArea maxBoundingRect
        minX minY maxX maxY s = decayMotionRect f s) ∧
    (∀ s : CvRect, 0 ≤ s.height →
      (decayMotionRect f s).width = castToInt ((s.width : ℚ) * f) ∧
      (decayMotionRect f s).height = ⌊(s.height : ℚ) * (1/4)⌋) ∧
    (∀ n : ℕ,
      ((decayMotionRect f)^[n + 1] r).area
        ≤ ((decayMotionRect f)^[n] r).area) ∧
    ((decayMotionRect f)^[r.height.toNat] r).area = 0 := by
  refine ⟨fun s => if_neg hq, ?_, ?_, ?_⟩
  · intro s hsh
    refine ⟨rfl, ?_⟩
    show castToInt ((s.height : ℚ) * (1/4)) = _
    exact castToInt_eq_floor
      (mul_nonneg (by exact_mod_cast hsh) (by norm_num))
  · intro n
    obtain ⟨hwn, hhn⟩ := decay_iter_dims f hf0 hf1 r hw.le hh.le n
    have hhn0 : 0 ≤ ((decayMotionRect f)^[n] r).height := by
      rw [hhn]; exact_mod_cast Nat.zero_le _
    rw [Function.iterate_succ_apply']
    exact (decay_area_le f hf0 hf1 _ hwn hhn0).1
  · obtain ⟨_, hhn⟩ :=
      decay_iter_dims f hf0 hf1 r hw.le hh.le r.height.toNat
    have hz : r.height.toNat / 4 ^ r.height.toNat = 0 :=
      Nat.div_eq_of_lt (Nat.lt_pow_self (by norm_num) _)
    unfold CvRect.area
    rw [hhn, hz]
    simp

/-- Witness for `motionRect_decay_spec` at the preset smoothing factor
0.1 and an 8×8 starting rectangle. -/
theorem motionRect_decay_spec_witness :
    ((decayMotionRect (1/10))^[(8 : ℤ).toNat]
      (⟨0, 0, 8, 8⟩ : CvRect)).area = 0 :=
  (motionRect_decay_spec (1/10) 1 (by norm_num) (by norm_num) 0
    ⟨0, 0, 0, 0⟩ 0 0 0 0 (by norm_num [CvRect.area]) ⟨0, 0, 8, 8⟩
    (by norm_num) (by norm_num)).2.2.2

/-! ## C8: the disk space manager prunes oldest-first -/

/-- `DeleteOldestRecording` refuses exactly on lists of at most one
sub-directory. -/
theorem deleteOldestRecording_eq_none {l : List ℕ}
    (h : deleteOldestRecording l = none) : l.length ≤ 1 := by
  by_contra hc
  simp [deleteOldestRecording, hc] at h

/-- A successful `DeleteOldestRecording` removes the head of the sorted
list, and only fires on lists of at least two sub-directories. -/
theorem deleteOldestRecording_eq_some {l d : List ℕ}
    (h : deleteOldestRecording l = some d) :
    d = (List.insertionSort (· ≤ ·) l).tail ∧ 2 ≤ l.length := by
  by_cases hc : l.length ≤ 1
  · simp [deleteOldestRecording, hc] at h
  · simp [deleteOldestRecording, hc] at h
    exact ⟨h.symm, by omega⟩

/-- On an already-sorted list, the used-space loop returns a suffix
(drop of a prefix) and never empties a non-empty list. -/
theorem checkUsedDiskSpace_sorted (usage : ℕ → ℤ) (maxP : ℤ) :
    ∀ (fuel : ℕ) (l : List ℕ), l.length ≤ fuel →
      l.Sorted (· ≤ ·) → ∀ i : ℕ,
      (∃ k, checkUsedDiskSpace usage maxP i l = l.drop k) ∧
      (l ≠ [] → checkUsedDiskSpace usage maxP i l ≠ []) := by
  intro fuel
  induction fuel with
  | zero =>
      intro l hl hs i
      have hnil : l = [] := List.length_eq_zero.mp (Nat.le_zero.mp hl)
      subst hnil
      rw [checkUsedDiskSpace]
      refine ⟨⟨0, ?_⟩, fun hne => absurd rfl hne⟩
      split_ifs <;> simp [deleteOldestRecording]
  | succ n ih =>
      intro l hl hs i
      rw [checkUsedDiskSpace]
      split_ifs with hu
      · split
        · exact ⟨⟨0, (List.drop_zero l).symm⟩, fun hne => hne⟩
        · rename_i d heq
          obtain ⟨hd, hlen⟩ := deleteOldestRecording_eq_some heq
          rw [hs.insertionSort_eq] at hd
          have hdl : d = l.drop 1 := by rw [hd, List.drop_one]
          have hds : d.Sorted (· ≤ ·) := by
            rw [hd]; exact List.Pairwise.sublist (List.tail_sublist l) hs
          have hdlen : d.length ≤ n := by
            rw [hdl, List.length_drop]; omega
          obtain ⟨⟨k2, hk2⟩, hne2⟩ := ih d hdlen hds (i + 1)
          refine ⟨⟨1 + k2, ?_⟩, fun _ => ?_⟩
          · rw [hk2, hdl, List.drop_drop]
          · refine hne2 ?_
            rw [hdl]
            intro hnil
            have := congrArg List.length hnil
            simp [List.length_drop] at this
            omega
      · exact ⟨⟨0, (List.drop_zero l).symm⟩, fun hne => hne⟩

/-- The used-space loop either leaves the list untouched or returns a
suffix of the sorted list; it never empties a non-empty list. -/
theorem checkUsedDiskSpace_cases (usage : ℕ → ℤ) (maxP : ℤ) (i : ℕ)
    (l : List ℕ) :
    (checkUsedDiskSpace usage maxP i l = l ∨
      ∃ k, checkUsedDiskSpace usage maxP i l
        = (List.insertionSort (· ≤ ·) l).drop k) ∧
    (l ≠ [] → checkUsedDiskSpace usage maxP i l ≠ []) := by
  rw [checkUsedDiskSpace]
  split_ifs with hu
  · split
    · exact ⟨Or.inl rfl, fun hne => hne⟩
    · rename_i d heq
      obtain ⟨hd, hlen⟩ := deleteOldestRecording_eq_some heq
      have hds : d.Sorted (· ≤ ·) := by
        rw [hd]
        exact List.Pairwise.sublist (List.tail_sublist _)
          (List.sorted_insertionSort (· ≤ ·) l)
      obtain ⟨⟨k2, hk2⟩, hne2⟩ :=
        checkUsedDiskSpace_sorted usage maxP d.length d le_rfl hds (i + 1)
      have hdd : d = (List.insertionSort (· ≤ ·) l).drop 1 := by
        rw [hd, List.drop_one]
      refine ⟨Or.inr ⟨1 + k2, ?_⟩, fun _ => ?_⟩
      · rw [hk2, hdd, List.drop_drop]
      · refine hne2 ?_
        intro hnil
        have := congrArg List.length hnil
        have hsl : (List.insertionSort (· ≤ ·) l).length = l.length :=
          (List.perm_insertionSort (· ≤ ·) l).length_eq
        rw [hd] at this
        simp [List.length_tail, hsl] at this
        omega
  · exact ⟨Or.inl rfl, fun hne => hne⟩

/-- On an already-sorted list, the day-count loop returns a suffix and
never empties a non-empty list. -/
theorem checkNumDaysDataStored_sorted (maxDays : ℕ) :
    ∀ (fuel : ℕ) (l : List ℕ), l.length ≤ fuel →
      l.Sorted (· ≤ ·) →
      (∃ k, checkNumDaysDataStored maxDays l = l.drop k) ∧
      (l ≠ [] → checkNumDaysDataStored maxDays l ≠ []) := by
  intro fuel
  induction fuel with
  | zero =>
      intro l hl hs
      have hnil : l = [] := List.length_eq_zero.mp (Nat.le_zero.mp hl)
      subst hnil
      rw [checkNumDaysDataStored]
      refine ⟨⟨0, ?_⟩, fun hne => absurd rfl hne⟩
      split_ifs <;> simp [deleteOldestRecording]
  | succ n ih =>
      intro l hl hs
      rw [checkNumDaysDataStored]
      split_ifs with hu
      · split
        · exact ⟨⟨0, (List.drop_zero l).symm⟩, fun hne => hne⟩
        · rename_i d heq
          obtain ⟨hd, hlen⟩ := deleteOldestRecording_eq_some heq
          rw [hs.insertionSort_eq] at hd
          have hdl : d = l.drop 1 := by rw [hd, List.drop_one]
          have hds : d.Sorted (· ≤ ·) := by
            rw [hd]; exact List.Pairwise.sublist (List.tail_sublist l) hs
          have hdlen : d.length ≤ n := by
            rw [hdl, List.length_drop]; omega
          obtain ⟨⟨k2, hk2⟩, hne2⟩ := ih d hdlen hds
          refine ⟨⟨1 + k2, ?_⟩, fun _ => ?_⟩
          · rw [hk2, hdl, List.drop_drop]
          · refine hne2 ?_
            rw [hdl]
            intro hnil
            have := congrArg List.length hnil
            simp [List.length_drop] at this
            omega
      · exact ⟨⟨0, (List.drop_zero l).symm⟩, fun hne => hne⟩

/-- The day-count loop either leaves the list untouched or returns a
suffix of the sorted list; it never empties a non-empty list. -/
theorem checkNumDaysDataStored_cases (maxDays : ℕ) (l : List ℕ) :
    (checkNumDaysDataStored maxDays l = l ∨
      ∃ k, checkNumDaysDataStored maxDays l
        = (List.insertionSort (· ≤ ·) l).drop k) ∧
    (l ≠ [] → checkNumDaysDataStored maxDays l ≠ []) := by
  rw [checkNumDaysDataStored]
  split_ifs with hu
  · split
    · exact ⟨Or.inl rfl, fun hne => hne⟩
    · rename_i d heq
      obtain ⟨hd, hlen⟩ := deleteOldestRecording_eq_some heq
      have hds : d.Sorted (· ≤ ·) := by
        rw [hd]
        exact List.Pairwise.sublist (List.tail_sublist _)
          (List.sorted_insertionSort (· ≤ ·) l)
      obtain ⟨⟨k2, hk2⟩, hne2⟩ :=
        checkNumDaysDataStored_sorted maxDays d.length d le_rfl hds
      have hdd : d = (List.insertionSort (· ≤ ·) l).drop 1 := by
        rw [hd, List.drop_one]
      refine ⟨Or.inr ⟨1 + k2, ?_⟩, fun _ => ?_⟩
      · rw [hk2, hdd, List.drop_drop]
      · refine hne2 ?_
        intro hnil
        have := congrArg List.length hnil
        have hsl : (List.insertionSort (· ≤ ·) l).length = l.length :=
          (List.perm_insertionSort (· ≤ ·) l).length_eq
        rw [hd] at this
        simp [List.length_tail, hsl] at this
        omega
  · exact ⟨Or.inl rfl, fun hne => hne⟩

/-- C8: on every disk-manager tick, the sub-directories that get deleted
are exactly some number of the lexicographically smallest (oldest) ones
— the surviving list is, up to the ordering of the in-memory list, the
sorted list with its first `k` entries removed; a tick never empties a
non-empty directory list (the last remaining day-directory is never
deleted, even if a limit is still exceeded); and when neither the
disk-usage limit nor the day-count limit is exceeded, nothing is
deleted at all. -/
theorem diskManagerTick_deletes_oldest_spec (usage : ℕ → ℤ)
    (maxPercentUsedSpace : ℤ) (maxNumDaysToStore : ℕ) (subDirs : List ℕ) :
    (∃ k, (diskManagerTick usage maxPercentUsedSpace maxNumDaysToStore
        subDirs).Perm ((List.insertionSort (· ≤ ·) subDirs).drop k)) ∧
    (subDirs ≠ [] →
      diskManagerTick usage maxPercentUsedSpace maxNumDaysToStore subDirs
        ≠ []) ∧
    ((∀ i, ¬ usage i > maxPercentUsedSpace) →
      ¬ subDirs.length > maxNumDaysToStore →
      diskManagerTick usage maxPercentUsedSpace maxNumDaysToStore subDirs
        = subDirs) := by
  unfold diskManagerTick
  obtain ⟨hc1, hne1⟩ :=
    checkUsedDiskSpace_cases usage maxPercentUsedSpace 0 subDirs
  obtain ⟨hc2, hne2⟩ := checkNumDaysDataStored_cases maxNumDaysToStore
    (checkUsedDiskSpace usage maxPercentUsedSpace 0 subDirs)
  refine ⟨?_, fun hne => hne2 (hne1 hne), ?_⟩
  · rcases hc1 with h1 | ⟨k1, h1⟩
    · rcases hc2 with h2 | ⟨k2, h2⟩
      · refine ⟨0, ?_⟩
        rw [h2, h1, List.drop_zero]
        exact (List.perm_insertionSort (· ≤ ·) subDirs).symm
      · exact ⟨k2, by rw [h2, h1]⟩
    · have hms : (checkUsedDiskSpace usage maxPercentUsedSpace 0
          subDirs).Sorted (· ≤ ·) := by
        rw [h1]
        exact List.Pairwise.sublist (List.drop_sublist k1 _)
          (List.sorted_insertionSort (· ≤ ·) subDirs)
      rcases hc2 with h2 | ⟨k2, h2⟩
      · exact ⟨k1, by rw [h2, h1]⟩
      · refine ⟨k1 + k2, ?_⟩
        rw [h2, hms.insertionSort_eq, h1, List.drop_drop]
  · intro hu hd
    have h1 : checkUsedDiskSpace usage maxPercentUsedSpace 0 subDirs
        = subDirs := by
      rw [checkUsedDiskSpace]
      exact if_neg (hu 0)
    rw [h1, checkNumDaysDataStored]
    exact if_neg hd

/-- Witness for `diskManagerTick_deletes_oldest_spec` at the
specification's scenario directories. -/
theorem diskManagerTick_deletes_oldest_spec_witness :
    ([20240101, 20240102, 20240103] : List ℕ) ≠ [] ∧
    diskManagerTick (fun _ => 50) 90 2 [20240101, 20240102, 20240103]
      ≠ [] :=
  ⟨by decide,
   (diskManagerTick_deletes_oldest_spec (fun _ => 50) 90 2
      [20240101, 20240102, 20240103]).2.1 (by decide)⟩

end IpFreely
